import Mathlib

/- Verification development for the pystemmer build helper (setup.py).

   Strings are modelled as lists of characters.  Python string operations
   (strip, replace, endswith, os.path.split, os.path.join) are translated
   directly from their CPython semantics on POSIX paths.  The on-disk
   filesystem is modelled as an association list from paths to file lines,
   and the observable effects of acquisition (network fetches, extraction,
   manifest resolution) are tracked in an explicit world state. -/

namespace PyStemmer

abbrev Str := List Char

abbrev FS := List (Str × List Str)

/-- Python str.strip strips these whitespace characters (ASCII range). -/
def isPySpace (c : Char) : Bool :=
  c == ' ' || c == '\t' || c == '\n' || c == '\r' || c == Char.ofNat 11 || c == Char.ofNat 12

/-- Python str.strip: drop whitespace from both ends. -/
def pyStrip (s : Str) : Str :=
  ((s.dropWhile isPySpace).reverse.dropWhile isPySpace).reverse

/-- Python line.replace of the two character sequence space backslash by the
    empty string: scan left to right, removing non-overlapping occurrences. -/
def replaceSB : Str → Str
  | [] => []
  | [c] => [c]
  | a :: b :: rest =>
      if a == ' ' && b == '\\' then replaceSB rest else a :: replaceSB (b :: rest)

/-- Does the string contain an occurrence of space followed by backslash? -/
def hasMarker : Str → Bool
  | [] => false
  | [_] => false
  | a :: b :: rest => (a == ' ' && b == '\\') || hasMarker (b :: rest)

/-- Characters other than the POSIX path separator. -/
def notSep (c : Char) : Bool := !(c == '/')

/-- posixpath.split tail component: everything after the last separator. -/
def splitFilename (l : Str) : Str :=
  (l.reverse.takeWhile notSep).reverse

/-- posixpath.split raw head: everything up to and including the last separator. -/
def splitHeadRaw (l : Str) : Str :=
  (l.reverse.dropWhile notSep).reverse

/-- posixpath.split head component, as used by os.path.split(line)[0]:
    the raw head with trailing separators stripped unless it is empty or
    consists only of separators. -/
def splitDirectory (l : Str) : Str :=
  let h := splitHeadRaw l
  if h.isEmpty || h.all (fun c => c == '/') then h
  else (h.reverse.dropWhile (fun c => c == '/')).reverse

/-- posixpath.join of two components. -/
def osJoin (a b : Str) : Str :=
  if b.head? = some '/' then b
  else if a.isEmpty || a.getLast? = some '/' then a ++ b
  else a ++ '/' :: b

/-- Python str.split on a single separator character (keeps empty pieces). -/
def pySplitOnAux (sep : Char) : Str → Str → List Str
  | [], acc => [acc.reverse]
  | c :: rest, acc =>
      if c == sep then acc.reverse :: pySplitOnAux sep rest []
      else pySplitOnAux sep rest (c :: acc)

def pySplitOn (sep : Char) (s : Str) : List Str := pySplitOnAux sep s []

/-- setup.py: version_str = '3.0.0'. -/
def version_str : Str := "3.0.0".data

/-- setup.py: take the first three dot-separated components of version_str. -/
def libstemmer_c_version : Str :=
  List.intercalate ['.'] ((pySplitOn '.' version_str).take 3)

/-- LibrarySourceCode.LIBRARY_CORE_DIRS. -/
def LIBRARY_CORE_DIRS : List Str :=
  ["src_c".data, "runtime".data, "libstemmer".data, "include".data]

/-- LibrarySourceCode.DEFAULT_URI (the percent-format applied to the version). -/
def DEFAULT_URI : Str :=
  ("https://snowballstem.org/dist/libstemmer_c-".data) ++ libstemmer_c_version ++ (".tar.gz".data)

/-- LibrarySourceCode.DEFAULT_CHECKSUM. -/
def DEFAULT_CHECKSUM : Str :=
  "d4eca4485f6d3cb4387626a5f508b9b3489d24737525c23ba58026159497a8bc".data

/-- The default constructor argument: directory = libstemmer_c-version. -/
def LIBRARY_DIRECTORY : Str := ("libstemmer_c-".data) ++ libstemmer_c_version

/-- LibrarySourceCode.manifest_file_path: os.path.join(directory, mkinc_utf8.mak). -/
def manifest_file_path (directory : Str) : Str :=
  osJoin directory ("mkinc_utf8.mak".data)

/-- LibrarySourceCode.include_directories: [os.path.join(directory, include)]. -/
def include_directories (directory : Str) : List Str :=
  [osJoin directory ("include".data)]

/-- The per-line cleaning step of source_code_paths:
    line.strip followed by removing space-backslash pairs. -/
def cleanLine (l : Str) : Str := replaceSB (pyStrip l)

/-- The filter of source_code_paths: the cleaned line ends with .c and its
    directory component is a member of the allow-list. -/
def lineSelected (cores : List Str) (l : Str) : Bool :=
  List.isSuffixOf ['.', 'c'] (cleanLine l) && decide (splitDirectory (cleanLine l) ∈ cores)

/-- LibrarySourceCode.source_code_paths, parameterised by the allow-list:
    keep the manifest lines passing the filter and recompose each with the
    distribution directory.  The Python function builds a set; here the
    result list represents that set up to duplication and order. -/
def source_code_paths_with (directory : Str) (cores : List Str) (lines : List Str) : List Str :=
  (lines.filter (lineSelected cores)).map (fun l => osJoin directory (cleanLine l))

/-- LibrarySourceCode.source_code_paths with the allow-list fixed to
    LIBRARY_CORE_DIRS as in the source. -/
def source_code_paths (directory : Str) (lines : List Str) : List Str :=
  source_code_paths_with directory LIBRARY_CORE_DIRS lines

/-- Raised when the manifest file is absent; abstracts the Python
    FileNotFoundError escaping from open in iter_manifest_lines. -/
structure ManifestNotFoundError where
  path : Str
deriving DecidableEq

/-- LibrarySourceCode.iter_manifest_lines over an explicit filesystem:
    opening the manifest yields its lines, or fails when it is absent. -/
def iter_manifest_lines (fs : FS) (directory : Str) : Except ManifestNotFoundError (List Str) :=
  match List.lookup (manifest_file_path directory) fs with
  | some lines => Except.ok lines
  | none => Except.error { path := manifest_file_path directory }

/-- LibrarySourceCode.source_code_paths over an explicit filesystem. -/
def source_code_paths_fs (fs : FS) (directory : Str) : Except ManifestNotFoundError (List Str) :=
  (iter_manifest_lines fs directory).map (fun lines => source_code_paths directory lines)

/-- Does a path exist in the modelled filesystem? -/
def fsExists (fs : FS) (p : Str) : Bool := (List.lookup p fs).isSome

/-- Python truthiness of x or default for an optional string argument:
    none and the empty string fall back to the default. -/
def pyOrStr (x : Option Str) (default : Str) : Str :=
  match x with
  | none => default
  | some s => if s.isEmpty then default else s

/-- The resolved (url, checksum) pair that LibrarySourceCode.download passes
    to the fetcher: url or DEFAULT_URI, checksum or DEFAULT_CHECKSUM. -/
def download_args (url checksum : Option Str) : Str × Str :=
  (pyOrStr url DEFAULT_URI, pyOrStr checksum DEFAULT_CHECKSUM)

/-- Observable world state of the build: the on-disk files, whether the
    distribution directory exists, the log of network fetches performed
    (url and checksum of each), and how many times manifest resolution ran. -/
structure BuildWorld where
  files : FS
  dirPresent : Bool
  fetchLog : List (Str × Str)
  manifestResolutions : Nat
deriving DecidableEq

/-- Modelled from the spec: tarballfetcher.download_and_extract_tarball is
    not under src/.  Sections 4.1-4.3 compose fetch, verify and extract with
    no presence check; on success the archive contents land on disk and the
    distribution directory exists.  One network request is recorded. -/
def download_and_extract_tarball_fs (url checksum : Str) (archive : FS) (w : BuildWorld) : BuildWorld :=
  { files := archive ++ w.files
    dirPresent := true
    fetchLog := (url, checksum) :: w.fetchLog
    manifestResolutions := w.manifestResolutions }

/-- LibrarySourceCode.download: resolve the optional arguments against the
    defaults and invoke the fetch-verify-extract pipeline. -/
def LibrarySourceCode.download (archive : FS) (url checksum : Option Str) (w : BuildWorld) : BuildWorld :=
  download_and_extract_tarball_fs (pyOrStr url DEFAULT_URI) (pyOrStr checksum DEFAULT_CHECKSUM) archive w

/-- The module-level acquisition guard of setup.py: download only when the
    distribution directory is not already present on disk. -/
def acquire_if_absent (archive : FS) (w : BuildWorld) : BuildWorld :=
  if w.dirPresent then w else LibrarySourceCode.download archive none none w

/-- Link mode of the composed build configuration (spec data model). -/
inductive LinkMode
  | SYSTEM_LIBRARY
  | VENDORED
deriving DecidableEq

/-- The Extension produced by setup.py, with the link mode of the spec data
    model attached to the branch that built it. -/
structure ExtensionConfig where
  sources : List Str
  libraries : List Str
  include_dirs : List Str
  linkMode : LinkMode
deriving DecidableEq

/-- The module-level branch of setup.py on SYSTEM_LIBSTEMMER: either the
    system-library extension (no acquisition, no resolution), or acquire if
    absent, then resolve the manifest and build the vendored extension.
    Manifest resolution is counted as invoked in both of its outcomes. -/
def compose (useSystemLibrary : Bool) (archive : FS) (w : BuildWorld) :
    Except ManifestNotFoundError ExtensionConfig × BuildWorld :=
  if useSystemLibrary then
    (Except.ok { sources := ["src/Stemmer.pyx".data]
                 libraries := ["stemmer".data]
                 include_dirs := []
                 linkMode := LinkMode.SYSTEM_LIBRARY }, w)
  else
    let w1 := acquire_if_absent archive w
    let w2 := { w1 with manifestResolutions := w1.manifestResolutions + 1 }
    match iter_manifest_lines w1.files LIBRARY_DIRECTORY with
    | Except.ok lines =>
        (Except.ok { sources := ("src/Stemmer.pyx".data) :: source_code_paths LIBRARY_DIRECTORY lines
                     libraries := []
                     include_dirs := include_directories LIBRARY_DIRECTORY
                     linkMode := LinkMode.VENDORED }, w2)
    | Except.error e => (Except.error e, w2)

/-- The value os.environ.get(PYSTEMMER_SYSTEM_LIBSTEMMER, False) tested for
    truthiness: an unset variable gives False, a set variable is truthy
    exactly when the string is non-empty. -/
def SYSTEM_LIBSTEMMER (env : Option Str) : Bool :=
  match env with
  | none => false
  | some s => !s.isEmpty

/-- Which branch of the module-level conditional runs, as a link mode. -/
def link_mode (env : Option Str) : LinkMode :=
  if SYSTEM_LIBSTEMMER env then LinkMode.SYSTEM_LIBRARY else LinkMode.VENDORED

/-- The bootstrap command object: its two user options. -/
structure BootstrapCommand where
  libstemmer_url : Str
  libstemmer_sha256 : Str
deriving DecidableEq

/-- BootstrapCommand.initialize_options: both options start at the defaults.
    The Lean name is shortened; it models the method of that name. -/
def BootstrapCommand.init_options : BootstrapCommand :=
  { libstemmer_url := DEFAULT_URI, libstemmer_sha256 := DEFAULT_CHECKSUM }

/-- Setuptools option parsing: a supplied command-line override replaces the
    corresponding attribute, an absent one leaves it unchanged. -/
def set_user_options (cmd : BootstrapCommand) (url checksum : Option Str) : BootstrapCommand :=
  { libstemmer_url := url.getD cmd.libstemmer_url
    libstemmer_sha256 := checksum.getD cmd.libstemmer_sha256 }

/-- BootstrapCommand.run: call LibrarySourceCode.download with the two
    option values, unconditionally. -/
def BootstrapCommand.run (cmd : BootstrapCommand) (archive : FS) (w : BuildWorld) : BuildWorld :=
  LibrarySourceCode.download archive (some cmd.libstemmer_url) (some cmd.libstemmer_sha256) w

/-- The checksum-mismatch failure of the verifier, carrying both digests. -/
structure ChecksumMismatchError where
  expected : Str
  computed : Str
deriving DecidableEq

/-- Python str.lower on one ASCII character. -/
def pyLowerChar (c : Char) : Char :=
  if 65 ≤ c.toNat ∧ c.toNat ≤ 90 then Char.ofNat (c.toNat + 32) else c

/-- Python str.lower on a string. -/
def pyLower (s : Str) : Str := s.map pyLowerChar

/-- Modelled from the spec: the Integrity Verifier of section 4.2 lives in
    tarballfetcher, which is not under src/.  It computes the SHA-256 digest
    of the fetched bytes (the digest computation is a parameter, since a
    cryptographic hash is axiomatised rather than bit-modelled) and compares
    it case-insensitively with the expected digest, failing with a
    ChecksumMismatchError carrying both digests on mismatch. -/
def verify_sha256 (hash : List Nat → Str) (fetched : List Nat) (expected : Str) :
    Except ChecksumMismatchError Unit :=
  if pyLower (hash fetched) = pyLower expected then Except.ok ()
  else Except.error { expected := expected, computed := hash fetched }

/-- Modelled from the spec: the byte-level pipeline of sections 4.1-4.3.
    The Bool records whether the Extractor was invoked on the bytes. -/
def download_and_extract_tarball_bytes (hash : List Nat → Str) (extract : List Nat → FS)
    (fetched : List Nat) (expected : Str) : Except ChecksumMismatchError FS × Bool :=
  match verify_sha256 hash fetched expected with
  | Except.ok _ => (Except.ok (extract fetched), true)
  | Except.error e => (Except.error e, false)

/-- An injective digest function used to witness the verifier theorems:
    each byte is encoded in unary between markers that str.lower fixes. -/
def unaryDigest : List Nat → Str
  | [] => []
  | n :: rest => '+' :: (List.replicate n '-' ++ unaryDigest rest)

/-- A concrete world whose distribution directory is already present. -/
def presentWorld : BuildWorld :=
  { files := [(manifest_file_path LIBRARY_DIRECTORY, ["src_c/stem_ISO_8859_1_english.c \\".data])]
    dirPresent := true
    fetchLog := []
    manifestResolutions := 0 }

/- Helper lemmas -/

/-- A prefix test whose pattern consists of characters kept by takeWhile is
    unaffected by the takeWhile truncation. -/
theorem isPrefixOf_takeWhile (p : Char → Bool) :
    ∀ (s r : Str), (∀ x ∈ s, p x = true) →
      List.isPrefixOf s (List.takeWhile p r) = List.isPrefixOf s r := by
  intro s
  induction s with
  | nil => intro r h; simp [List.isPrefixOf]
  | cons x xs ih =>
    intro r h
    have hx : p x = true := h x (by simp)
    have hxs : ∀ z ∈ xs, p z = true := fun z hz => h z (by simp [hz])
    cases r with
    | nil => simp [List.takeWhile]
    | cons y ys =>
      by_cases hy : p y = true
      · simp [List.takeWhile, hy, List.isPrefixOf, ih ys hxs]
      · have hy2 : p y = false := by
          cases hpy : p y
          · rfl
          · exact absurd hpy hy
        have hxy : (x == y) = false := by
          cases hxy2 : x == y
          · rfl
          · exact absurd (eq_of_beq hxy2 ▸ hx) (by simp [hy2])
        simp [List.takeWhile, hy2, List.isPrefixOf, hxy]

/-- The code tests line.endswith on the whole cleaned line; this equals the
    same test on the filename component produced by os.path.split. -/
theorem isSuffixOf_splitFilename (l : Str) :
    List.isSuffixOf ['.', 'c'] (splitFilename l) = List.isSuffixOf ['.', 'c'] l := by
  have h : (['.', 'c'] : Str).reverse = ['c', '.'] := by decide
  simp only [List.isSuffixOf, splitFilename, List.reverse_reverse, h]
  exact isPrefixOf_takeWhile notSep ['c', '.'] l.reverse (by decide)

/-- Membership characterisation of the resolved source set: a path belongs
    to it exactly when some manifest line passes the cleaned-line filter and
    recomposes to that path. -/
theorem mem_source_code_paths_with (directory : Str) (cores : List Str)
    (lines : List Str) (p : Str) :
    p ∈ source_code_paths_with directory cores lines ↔
      ∃ l, l ∈ lines ∧
        List.isSuffixOf ['.', 'c'] (splitFilename (cleanLine l)) = true ∧
        splitDirectory (cleanLine l) ∈ cores ∧
        p = osJoin directory (cleanLine l) := by
  simp only [source_code_paths_with, List.mem_map, List.mem_filter, lineSelected,
    Bool.and_eq_true, decide_eq_true_eq, isSuffixOf_splitFilename]
  constructor
  · rintro ⟨a, ⟨ha, h1, h2⟩, h3⟩
    exact ⟨a, ha, h1, h2, h3.symm⟩
  · rintro ⟨a, ha, h1, h2, h3⟩
    exact ⟨a, ⟨ha, h1, h2⟩, h3.symm⟩

/-- A string with no space-backslash occurrence is unchanged by the
    replacement; in particular a backslash not preceded by a space stays. -/
theorem replaceSB_eq_self : ∀ (l : Str), hasMarker l = false → replaceSB l = l := by
  intro l
  induction l with
  | nil => intro h; rfl
  | cons a t ih =>
    cases t with
    | nil => intro h; rfl
    | cons b r =>
      intro h
      simp only [hasMarker, Bool.or_eq_false_iff, Bool.and_eq_false_iff] at h
      have hcond : (a == ' ' && b == '\\') = false := by
        rcases h.1 with h1 | h1 <;> simp [h1]
      simp only [replaceSB, hcond, Bool.false_eq_true, if_false]
      rw [ih h.2]

/-- The replacement removes a space-backslash occurrence wherever it stands,
    given that no occurrence precedes it: removal is not limited to a
    trailing continuation marker. -/
theorem replaceSB_removes_marker :
    ∀ (a b : Str), hasMarker a = false →
      replaceSB (a ++ ' ' :: '\\' :: b) = a ++ replaceSB b := by
  intro a
  induction a with
  | nil => intro b h; simp [replaceSB]
  | cons c t ih =>
    cases t with
    | nil =>
      intro b h
      show replaceSB (c :: ' ' :: '\\' :: b) = c :: replaceSB b
      have hcond : (c == ' ' && ' ' == '\\') = false := by simp
      simp only [replaceSB, hcond, Bool.false_eq_true, if_false]
      simp
    | cons d r =>
      intro b h
      simp only [hasMarker, Bool.or_eq_false_iff, Bool.and_eq_false_iff] at h
      have hcond : (c == ' ' && d == '\\') = false := by
        rcases h.1 with h1 | h1 <;> simp [h1]
      show replaceSB (c :: d :: (r ++ ' ' :: '\\' :: b)) = c :: d :: r ++ replaceSB b
      simp only [replaceSB, hcond, Bool.false_eq_true, if_false]
      have := ih b h.2
      simp only [List.cons_append] at this ⊢
      rw [this]

/-- str.lower fixes the unary digest alphabet. -/
theorem pyLower_unaryDigest : ∀ (x : List Nat), pyLower (unaryDigest x) = unaryDigest x := by
  intro x
  induction x with
  | nil => rfl
  | cons n xs ih =>
    have h1 : pyLowerChar '+' = '+' := by decide
    have h2 : pyLowerChar '-' = '-' := by decide
    simp [unaryDigest, pyLower, List.map_replicate, h1, h2]
    simpa [pyLower] using ih

/-- The unary digest of a byte list is empty or starts with the marker. -/
theorem unaryDigest_head : ∀ (x : List Nat),
    unaryDigest x = [] ∨ ∃ t, unaryDigest x = '+' :: t := by
  intro x
  cases x with
  | nil => exact Or.inl rfl
  | cons n xs => exact Or.inr ⟨_, rfl⟩

/-- takeWhile for dashes runs through a replicate block. -/
theorem takeWhile_dash_replicate (u : Str) (hu : u.takeWhile (fun c => c == '-') = []) :
    ∀ (n : Nat), (List.replicate n '-' ++ u).takeWhile (fun c => c == '-') = List.replicate n '-' := by
  intro n
  induction n with
  | zero => simpa using hu
  | succ m ih =>
    simp only [List.replicate_succ, List.cons_append, List.takeWhile]
    simp only [show (('-' : Char) == '-') = true from rfl, List.append_eq]
    rw [ih]

/-- A unary digest has no leading dash. -/
theorem takeWhile_dash_unaryDigest (x : List Nat) :
    (unaryDigest x).takeWhile (fun c => c == '-') = [] := by
  cases x with
  | nil => rfl
  | cons n xs =>
    simp only [unaryDigest, List.takeWhile]
    simp [show (('+' : Char) == '-') = false from rfl]

/-- The unary digest is injective. -/
theorem unaryDigest_inj : ∀ (x y : List Nat), unaryDigest x = unaryDigest y → x = y := by
  intro x
  induction x with
  | nil =>
    intro y h
    cases y with
    | nil => rfl
    | cons m ys => simp [unaryDigest] at h
  | cons n xs ih =>
    intro y h
    cases y with
    | nil => simp [unaryDigest] at h
    | cons m ys =>
      simp only [unaryDigest, List.cons.injEq] at h
      have hn : List.replicate n '-' ++ unaryDigest xs = List.replicate m '-' ++ unaryDigest ys :=
        h.2
      have hlen := congrArg (fun l => (l.takeWhile (fun c => c == '-')).length) hn
      simp only [takeWhile_dash_replicate _ (takeWhile_dash_unaryDigest xs),
        takeWhile_dash_replicate _ (takeWhile_dash_unaryDigest ys),
        List.length_replicate] at hlen
      subst hlen
      have htail : unaryDigest xs = unaryDigest ys := by
        have := hn
        rwa [List.append_cancel_left_eq] at this
      rw [ih ys htail]

/- Claim theorems -/

/-- Claim C1: manifest resolution is an exact filter.  For every distribution
    directory, allow-list and manifest, a path is in the resolved set exactly
    when some manifest line, after cleaning, has a filename component ending
    in .c and a directory component in the allow-list, and the path is the
    distribution directory joined with that cleaned line.  On the example
    manifest with lines src_c/stem_UTF_8_danish.c backslash-continued,
    src_c/stem_UTF_8_dutch.c and examples/batch_stemmer.c, the resolved set
    is exactly the two src_c paths. -/
theorem resolve_exact_filter :
    (∀ (directory : Str) (cores : List Str) (lines : List Str) (p : Str),
      p ∈ source_code_paths_with directory cores lines ↔
        ∃ l, l ∈ lines ∧
          List.isSuffixOf ['.', 'c'] (splitFilename (cleanLine l)) = true ∧
          splitDirectory (cleanLine l) ∈ cores ∧
          p = osJoin directory (cleanLine l)) ∧
    source_code_paths_with ("libstemmer_c-3.0.0".data) (["src_c".data, "include".data])
        ["src_c/stem_UTF_8_danish.c \\".data, "src_c/stem_UTF_8_dutch.c".data,
         "examples/batch_stemmer.c".data] =
      ["libstemmer_c-3.0.0/src_c/stem_UTF_8_danish.c".data,
       "libstemmer_c-3.0.0/src_c/stem_UTF_8_dutch.c".data] :=
  ⟨mem_source_code_paths_with, by decide⟩

/-- Witness for Claim C1: the danish path is a member of the resolved set of
    the example manifest, obtained through the exact-filter equivalence. -/
theorem resolve_exact_filter_witness :
    ("libstemmer_c-3.0.0/src_c/stem_UTF_8_danish.c".data) ∈
      source_code_paths_with ("libstemmer_c-3.0.0".data) (["src_c".data, "include".data])
        ["src_c/stem_UTF_8_danish.c \\".data, "src_c/stem_UTF_8_dutch.c".data,
         "examples/batch_stemmer.c".data] :=
  (resolve_exact_filter.1 ("libstemmer_c-3.0.0".data) (["src_c".data, "include".data])
      ["src_c/stem_UTF_8_danish.c \\".data, "src_c/stem_UTF_8_dutch.c".data,
       "examples/batch_stemmer.c".data]
      ("libstemmer_c-3.0.0/src_c/stem_UTF_8_danish.c".data)).mpr
    ⟨"src_c/stem_UTF_8_danish.c \\".data, by decide, by decide, by decide, by decide⟩

/-- Claim C6: when the manifest file at the fixed relative path is absent
    from the filesystem, resolution fails with ManifestNotFoundError and in
    particular never returns a result set; the fixed path for the default
    distribution directory is libstemmer_c-3.0.0/mkinc_utf8.mak. -/
theorem resolution_fails_without_manifest (fs : FS) (directory : Str)
    (h : List.lookup (manifest_file_path directory) fs = none) :
    source_code_paths_fs fs directory =
        Except.error { path := manifest_file_path directory } ∧
    (∀ s, source_code_paths_fs fs directory ≠ Except.ok s) ∧
    manifest_file_path LIBRARY_DIRECTORY = ("libstemmer_c-3.0.0/mkinc_utf8.mak".data) := by
  have h1 : source_code_paths_fs fs directory =
      Except.error { path := manifest_file_path directory } := by
    simp [source_code_paths_fs, iter_manifest_lines, h, Except.map]
  refine ⟨h1, ?_, by decide⟩
  intro s hs
  rw [h1] at hs
  exact Except.noConfusion hs

/-- Witness for Claim C6: on the empty filesystem the manifest is absent and
    resolution fails. -/
theorem resolution_fails_without_manifest_witness :
    source_code_paths_fs [] LIBRARY_DIRECTORY =
      Except.error { path := manifest_file_path LIBRARY_DIRECTORY } :=
  (resolution_fails_without_manifest [] LIBRARY_DIRECTORY (by decide)).1

/-- Claim C7 counterexample: the code never checks that resolved paths exist.
    A filesystem whose manifest names src_c/ghost.c while containing no such
    file yields a resolved set whose single path does not exist on disk. -/
theorem resolved_path_existence_counterexample :
    source_code_paths_fs
        [(manifest_file_path LIBRARY_DIRECTORY, ["src_c/ghost.c".data])] LIBRARY_DIRECTORY =
      Except.ok ["libstemmer_c-3.0.0/src_c/ghost.c".data] ∧
    fsExists [(manifest_file_path LIBRARY_DIRECTORY, ["src_c/ghost.c".data])]
        ("libstemmer_c-3.0.0/src_c/ghost.c".data) = false := by
  constructor
  · rfl
  · decide

/-- Claim C7 amended: every path in the resolved set is the distribution
    directory joined with a selected manifest line; all resolved paths exist
    on disk provided the filesystem contains a file at the recomposed path of
    every selected manifest line. -/
theorem resolved_paths_exist_of_tree_complete (fs : FS) (directory : Str) (lines : List Str)
    (hm : List.lookup (manifest_file_path directory) fs = some lines)
    (hall : ∀ l ∈ lines, lineSelected LIBRARY_CORE_DIRS l = true →
      fsExists fs (osJoin directory (cleanLine l)) = true) :
    source_code_paths_fs fs directory = Except.ok (source_code_paths directory lines) ∧
    ∀ p ∈ source_code_paths directory lines, fsExists fs p = true := by
  constructor
  · simp [source_code_paths_fs, iter_manifest_lines, hm, Except.map]
  · intro p hp
    rcases (mem_source_code_paths_with directory LIBRARY_CORE_DIRS lines p).mp hp with
      ⟨l, hl, h1, h2, h3⟩
    have h1b : List.isSuffixOf ['.', 'c'] (cleanLine l) = true := by
      rw [← isSuffixOf_splitFilename]
      exact h1
    have hsel : lineSelected LIBRARY_CORE_DIRS l = true := by
      simp only [lineSelected, Bool.and_eq_true, decide_eq_true_eq]
      exact ⟨h1b, h2⟩
    rw [h3]
    exact hall l hl hsel

/-- Witness for the amended Claim C7: a filesystem containing both the
    manifest and the listed core source file satisfies the invariant. -/
theorem resolved_paths_exist_of_tree_complete_witness :
    source_code_paths_fs
        [(manifest_file_path LIBRARY_DIRECTORY, ["src_c/stem.c".data]),
         ("libstemmer_c-3.0.0/src_c/stem.c".data, [])] LIBRARY_DIRECTORY =
      Except.ok (source_code_paths LIBRARY_DIRECTORY ["src_c/stem.c".data]) ∧
    ∀ p ∈ source_code_paths LIBRARY_DIRECTORY ["src_c/stem.c".data],
      fsExists [(manifest_file_path LIBRARY_DIRECTORY, ["src_c/stem.c".data]),
                ("libstemmer_c-3.0.0/src_c/stem.c".data, [])] p = true :=
  resolved_paths_exist_of_tree_complete
    [(manifest_file_path LIBRARY_DIRECTORY, ["src_c/stem.c".data]),
     ("libstemmer_c-3.0.0/src_c/stem.c".data, [])]
    LIBRARY_DIRECTORY ["src_c/stem.c".data] (by decide) (by decide)

/-- Claim C9: the mode toggle is the string truthiness of the environment
    variable read at import time.  System-library mode is selected exactly
    when the variable is set to a non-empty string; the strings 0, false and
    no all select system-library mode, while an unset variable or the empty
    string selects vendored mode. -/
theorem env_toggle_truthiness :
    (∀ v : Option Str, link_mode v = LinkMode.SYSTEM_LIBRARY ↔ ∃ s, v = some s ∧ s ≠ []) ∧
    link_mode (some ("0".data)) = LinkMode.SYSTEM_LIBRARY ∧
    link_mode (some ("false".data)) = LinkMode.SYSTEM_LIBRARY ∧
    link_mode (some ("no".data)) = LinkMode.SYSTEM_LIBRARY ∧
    link_mode none = LinkMode.VENDORED ∧
    link_mode (some ([] : Str)) = LinkMode.VENDORED := by
  refine ⟨?_, by decide, by decide, by decide, by decide, by decide⟩
  intro v
  cases v with
  | none => simp [link_mode, SYSTEM_LIBSTEMMER]
  | some s =>
    cases s with
    | nil => simp [link_mode, SYSTEM_LIBSTEMMER]
    | cons c t => simp [link_mode, SYSTEM_LIBSTEMMER]

/-- Witness for Claim C9: any set non-empty value selects system mode. -/
theorem env_toggle_truthiness_witness :
    link_mode (some ("x".data)) = LinkMode.SYSTEM_LIBRARY :=
  (env_toggle_truthiness.1 (some ("x".data))).mpr ⟨"x".data, rfl, by decide⟩

/-- Claim C10: the parser removes every left-to-right occurrence of the
    space-backslash pair anywhere in the stripped line, not only a trailing
    continuation marker; a path containing the pair internally is silently
    altered before the filters run, and a backslash not preceded by a space
    is not removed.  Concretely, src_c/my backslash file.c resolves to the
    altered path d/src_c/myfile.c, a line with both an internal and a
    trailing pair loses both, and src_c/foo.c backslash survives cleaning
    unchanged and is therefore rejected by the filter. -/
theorem continuation_marker_removal :
    (∀ (a b : Str), hasMarker a = false →
      replaceSB (a ++ ' ' :: '\\' :: b) = a ++ replaceSB b) ∧
    (∀ (l : Str), hasMarker l = false → replaceSB l = l) ∧
    source_code_paths ("d".data) ["src_c/my \\file.c".data] = [("d/src_c/myfile.c".data)] ∧
    cleanLine ("src_c/a \\b.c \\".data) = ("src_c/ab.c".data) ∧
    cleanLine ("src_c/foo.c\\".data) = ("src_c/foo.c\\".data) ∧
    lineSelected LIBRARY_CORE_DIRS ("src_c/foo.c\\".data) = false :=
  ⟨replaceSB_removes_marker, replaceSB_eq_self, by decide, by decide, by decide, by decide⟩

/-- Witness for Claim C10: the removal lemma applied at a concrete split. -/
theorem continuation_marker_removal_witness :
    replaceSB (("src_c/my".data) ++ ' ' :: '\\' :: ("file.c".data)) =
      ("src_c/my".data) ++ replaceSB ("file.c".data) :=
  continuation_marker_removal.1 ("src_c/my".data) ("file.c".data) (by decide)

/-- Claim C2: acquisition is idempotent.  When the distribution directory is
    already present the guard returns the world untouched, so no network
    request happens and the files are byte-for-byte unchanged; and after any
    successful first acquisition a second call is a no-op, performing zero
    network requests and leaving the on-disk contents unchanged. -/
theorem acquire_idempotent (archive : FS) (w : BuildWorld) :
    (w.dirPresent = true → acquire_if_absent archive w = w) ∧
    acquire_if_absent archive (acquire_if_absent archive w) = acquire_if_absent archive w ∧
    (acquire_if_absent archive (acquire_if_absent archive w)).fetchLog =
      (acquire_if_absent archive w).fetchLog ∧
    (acquire_if_absent archive (acquire_if_absent archive w)).files =
      (acquire_if_absent archive w).files := by
  have hpres : (acquire_if_absent archive w).dirPresent = true := by
    by_cases h : w.dirPresent
    · simp [acquire_if_absent, h]
    · simp [acquire_if_absent, h, LibrarySourceCode.download, download_and_extract_tarball_fs]
  have hsecond : acquire_if_absent archive (acquire_if_absent archive w) =
      acquire_if_absent archive w := by
    have hdef : acquire_if_absent archive (acquire_if_absent archive w) =
        if (acquire_if_absent archive w).dirPresent then acquire_if_absent archive w
        else LibrarySourceCode.download archive none none (acquire_if_absent archive w) := rfl
    rw [hdef, hpres]
    simp
  refine ⟨?_, hsecond, by rw [hsecond], by rw [hsecond]⟩
  intro h
  simp [acquire_if_absent, h]

/-- Witness for Claim C2: the already-present world is returned unchanged. -/
theorem acquire_idempotent_witness :
    acquire_if_absent [] presentWorld = presentWorld :=
  (acquire_idempotent [] presentWorld).1 (by decide)

/-- Claim C3: build-configuration composition is mode-exclusive.  With the
    system-library toggle true the configuration has link mode
    SYSTEM_LIBRARY, only the binding source, a dependency on the system
    library name, and the world is untouched (no acquisition, no manifest
    resolution, no network).  With the toggle false and the distribution
    already on disk, no network request happens, manifest resolution is
    invoked exactly once, and when the manifest is present the result is the
    vendored source set plus the include directories. -/
theorem compose_mode_exclusive (archive : FS) (w : BuildWorld) :
    compose true archive w =
      (Except.ok { sources := ["src/Stemmer.pyx".data]
                   libraries := ["stemmer".data]
                   include_dirs := []
                   linkMode := LinkMode.SYSTEM_LIBRARY }, w) ∧
    (w.dirPresent = true →
      (compose false archive w).2.fetchLog = w.fetchLog ∧
      (compose false archive w).2.manifestResolutions = w.manifestResolutions + 1 ∧
      ∀ lines, List.lookup (manifest_file_path LIBRARY_DIRECTORY) w.files = some lines →
        (compose false archive w).1 =
          Except.ok { sources :=
                        ("src/Stemmer.pyx".data) :: source_code_paths LIBRARY_DIRECTORY lines
                      libraries := []
                      include_dirs := include_directories LIBRARY_DIRECTORY
                      linkMode := LinkMode.VENDORED }) := by
  constructor
  · rfl
  · intro h
    have hacq : acquire_if_absent archive w = w := by simp [acquire_if_absent, h]
    refine ⟨?_, ?_, ?_⟩
    · simp only [compose, Bool.false_eq_true, if_false, hacq]
      cases hm : iter_manifest_lines w.files LIBRARY_DIRECTORY <;> simp [hm]
    · simp only [compose, Bool.false_eq_true, if_false, hacq]
      cases hm : iter_manifest_lines w.files LIBRARY_DIRECTORY <;> simp [hm]
    · intro lines hl
      have hm : iter_manifest_lines w.files LIBRARY_DIRECTORY = Except.ok lines := by
        simp [iter_manifest_lines, hl]
      simp [compose, hacq, hm]

/-- Witness for Claim C3: the system branch on the present world, and the
    vendored branch resolving the concrete one-line manifest. -/
theorem compose_mode_exclusive_witness :
    (compose false [] presentWorld).2.fetchLog = presentWorld.fetchLog ∧
    (compose false [] presentWorld).1 =
      Except.ok { sources := ("src/Stemmer.pyx".data) ::
                    source_code_paths LIBRARY_DIRECTORY
                      ["src_c/stem_ISO_8859_1_english.c \\".data]
                  libraries := []
                  include_dirs := include_directories LIBRARY_DIRECTORY
                  linkMode := LinkMode.VENDORED } :=
  ⟨((compose_mode_exclusive [] presentWorld).2 (by decide)).1,
   ((compose_mode_exclusive [] presentWorld).2 (by decide)).2.2
     ["src_c/stem_ISO_8859_1_english.c \\".data] (by decide)⟩

/-- Claim C5 counterexample: with the distribution directory already present
    on disk, running the bootstrap command still performs a network fetch,
    so its effect is not the presence-guarded acquire of spec section 4.4:
    BootstrapCommand.run calls download unconditionally. -/
theorem bootstrap_counterexample :
    presentWorld.dirPresent = true ∧
    (BootstrapCommand.init_options.run [] presentWorld).fetchLog ≠ presentWorld.fetchLog ∧
    (BootstrapCommand.init_options.run [] presentWorld).fetchLog =
      [(DEFAULT_URI, DEFAULT_CHECKSUM)] := by
  refine ⟨rfl, ?_, rfl⟩
  intro h
  simp [BootstrapCommand.run, BootstrapCommand.init_options, LibrarySourceCode.download,
    download_and_extract_tarball_fs, presentWorld] at h

/-- Claim C5 amended: the bootstrap subcommand accepts two optional
    overrides and unconditionally invokes the fetch-verify-extract pipeline,
    with no presence short-circuit: it fetches using the supplied non-empty
    overrides, or the embedded defaults when no override is supplied, and
    afterwards the archive contents are on disk. -/
theorem bootstrap_unconditional_download (archive : FS) (w : BuildWorld) (u c : Str) :
    (BootstrapCommand.init_options.run archive w).fetchLog =
      (DEFAULT_URI, DEFAULT_CHECKSUM) :: w.fetchLog ∧
    (u ≠ [] → c ≠ [] →
      ((set_user_options BootstrapCommand.init_options (some u) (some c)).run archive w).fetchLog =
        (u, c) :: w.fetchLog) ∧
    ((set_user_options BootstrapCommand.init_options (some u) (some c)).run archive w).files =
      archive ++ w.files ∧
    ((set_user_options BootstrapCommand.init_options (some u) (some c)).run archive w).dirPresent =
      true := by
  refine ⟨?_, ?_, rfl, rfl⟩
  · have hu : pyOrStr (some DEFAULT_URI) DEFAULT_URI = DEFAULT_URI := by decide
    have hc : pyOrStr (some DEFAULT_CHECKSUM) DEFAULT_CHECKSUM = DEFAULT_CHECKSUM := by decide
    simp [BootstrapCommand.run, BootstrapCommand.init_options, LibrarySourceCode.download,
      download_and_extract_tarball_fs, hu, hc]
  · intro hu hc
    have hu2 : u.isEmpty = false := by
      cases u
      · exact absurd rfl hu
      · rfl
    have hc2 : c.isEmpty = false := by
      cases c
      · exact absurd rfl hc
      · rfl
    simp [BootstrapCommand.run, set_user_options, BootstrapCommand.init_options,
      LibrarySourceCode.download, download_and_extract_tarball_fs, pyOrStr, hu2, hc2]

/-- Witness for the amended Claim C5: bootstrap on the present world with
    concrete overrides fetches from the overrides. -/
theorem bootstrap_unconditional_download_witness :
    ((set_user_options BootstrapCommand.init_options (some ("http://u".data))
        (some ("abc".data))).run [] presentWorld).fetchLog =
      [("http://u".data, "abc".data)] :=
  ((bootstrap_unconditional_download [] presentWorld ("http://u".data) ("abc".data)).2.1
    (by decide) (by decide))

/-- Claim C8 counterexample: the defaults are not used exactly when the
    caller supplies no value.  A caller-supplied empty URL is a supplied
    value, yet download resolves it to the default URI, because the Python
    x-or-default idiom treats the empty string like None. -/
theorem default_overridability_counterexample :
    download_args (some ([] : Str)) (some ([] : Str)) = (DEFAULT_URI, DEFAULT_CHECKSUM) ∧
    (some ([] : Str) : Option Str) ≠ none ∧
    DEFAULT_URI ≠ ([] : Str) := by
  refine ⟨rfl, ?_, by decide⟩
  intro h
  exact Option.noConfusion h

/-- Claim C8 amended: the default URI and checksum are the embedded
    constants; a caller-supplied non-empty URL and checksum are used in
    place of the defaults, and the defaults are used exactly when the caller
    supplies no value or supplies an empty string. -/
theorem default_overridability (u c : Str) (x : Option Str) :
    DEFAULT_URI = ("https://snowballstem.org/dist/libstemmer_c-3.0.0.tar.gz".data) ∧
    DEFAULT_CHECKSUM =
      ("d4eca4485f6d3cb4387626a5f508b9b3489d24737525c23ba58026159497a8bc".data) ∧
    download_args none none = (DEFAULT_URI, DEFAULT_CHECKSUM) ∧
    (u ≠ [] → c ≠ [] → download_args (some u) (some c) = (u, c)) ∧
    (download_args none x).1 = DEFAULT_URI ∧
    (download_args (some []) x).1 = DEFAULT_URI ∧
    (download_args x none).2 = DEFAULT_CHECKSUM ∧
    (download_args x (some [])).2 = DEFAULT_CHECKSUM := by
  refine ⟨by decide, by decide, rfl, ?_, rfl, rfl, rfl, rfl⟩
  intro hu hc
  have hu2 : u.isEmpty = false := by
    cases u
    · exact absurd rfl hu
    · rfl
  have hc2 : c.isEmpty = false := by
    cases c
    · exact absurd rfl hc
    · rfl
  simp [download_args, pyOrStr, hu2, hc2]

/-- Witness for the amended Claim C8: concrete non-empty overrides are used
    verbatim. -/
theorem default_overridability_witness :
    download_args (some ("http://u".data)) (some ("abc".data)) =
      ("http://u".data, "abc".data) :=
  (default_overridability ("http://u".data) ("abc".data) none).2.2.2.1 (by decide) (by decide)

/-- Claim C4: the verifier compares the digest of the fetched bytes
    case-insensitively with the expected digest; whenever the fetched bytes
    differ at all from the expected content (the digest computation being
    treated as collision-free), verification fails with a
    ChecksumMismatchError carrying the expected and the computed digest, and
    the bytes are never handed to the Extractor. -/
theorem checksum_mismatch_rejects (hash : List Nat → Str) (extract : List Nat → FS)
    (good bad : List Nat) (expected : Str)
    (hinj : ∀ x y : List Nat, pyLower (hash x) = pyLower (hash y) → x = y)
    (hne : bad ≠ good)
    (hexp : pyLower expected = pyLower (hash good)) :
    verify_sha256 hash bad expected =
      Except.error { expected := expected, computed := hash bad } ∧
    download_and_extract_tarball_bytes hash extract bad expected =
      (Except.error { expected := expected, computed := hash bad }, false) := by
  have hcond : ¬ (pyLower (hash bad) = pyLower expected) := by
    intro h
    exact hne (hinj bad good (h.trans hexp))
  have h1 : verify_sha256 hash bad expected =
      Except.error { expected := expected, computed := hash bad } := by
    simp [verify_sha256, hcond]
  exact ⟨h1, by simp [download_and_extract_tarball_bytes, h1]⟩

/-- Witness for Claim C4: with the injective unary digest, fetched bytes
    differing from the expected content are rejected and never extracted. -/
theorem checksum_mismatch_rejects_witness :
    verify_sha256 unaryDigest [1] (unaryDigest [2]) =
      Except.error { expected := unaryDigest [2], computed := unaryDigest [1] } ∧
    download_and_extract_tarball_bytes unaryDigest (fun _ => []) [1] (unaryDigest [2]) =
      (Except.error { expected := unaryDigest [2], computed := unaryDigest [1] }, false) :=
  checksum_mismatch_rejects unaryDigest (fun _ => []) [2] [1] (unaryDigest [2])
    (fun x y h => unaryDigest_inj x y
      (by rwa [pyLower_unaryDigest, pyLower_unaryDigest] at h))
    (by decide)
    (pyLower_unaryDigest [2])

end PyStemmer
